import Mathlib

/-!
Verification of the IDSPeak Micro-Manager camera adapter (IDSPeak.cpp / IDSPeak.h).

The definitions below are a shallow embedding of the adapter's configuration
and acquisition logic: machine doubles are modelled as rationals, C++ unsigned
ints as naturals with explicit mod-2^32 arithmetic where overflow can occur,
and the IDS peak device boundary as explicit status/access parameters.
-/

namespace IDSPeak

/-! ### Status and error codes (MMDeviceConstants / IDSPeak.h) -/

def DEVICE_OK : Int := 0

def DEVICE_ERR : Int := 1

def DEVICE_UNSUPPORTED_DATA_FORMAT : Int := 7

def DEVICE_INTERNAL_INCONSISTENCY : Int := 8

def DEVICE_BUFFER_OVERFLOW : Int := 22

def DEVICE_CAN_NOT_SET_PROPERTY : Int := 28

def DEVICE_CAMERA_BUSY_ACQUIRING : Int := 30

def ERR_ACQ_START : Int := 113

def ERR_ACQ_FRAME : Int := 114

def ERR_ACQ_RELEASE : Int := 115

def ERR_ACQ_TIMEOUT : Int := 116

def ERR_NO_WRITE_ACCESS : Int := 117

/-- Result of an IDS peak SDK call, as distinguished by the adapter. -/
inductive PeakStatus where
  | success
  | timeout
  | aborted
  | otherError
deriving DecidableEq

/-- Tri-state access mode reported by the device for a feature. -/
inductive PeakAccess where
  | noAccess
  | readOnly
  | readWrite
deriving DecidableEq

/-! ### 32-bit unsigned arithmetic -/

def U32MOD : Nat := 4294967296

def UINT_MAX : Nat := 4294967295

/-- C++ unsigned-int addition (wraps mod 2^32). -/
def uadd32 (a b : Nat) : Nat := (a + b) % U32MOD

/-- C++ unsigned-int subtraction (wraps mod 2^32); arguments assumed < 2^32. -/
def usub32 (a b : Nat) : Nat := (a + U32MOD - b) % U32MOD

/-! ### Adapter state (fields of CIDSPeak used by the claims) -/

structure CamState where
  roiX : Nat
  roiY : Nat
  imgWidth : Nat
  imgHeight : Nat
  multiROIXs : List Nat
  multiROIYs : List Nat
  multiROIWidths : List Nat
  multiROIHeights : List Nat
  cameraCCDXSize : Nat
  cameraCCDYSize : Nat
  binSize : Nat
  roiMinSizeX : Nat
  roiMinSizeY : Nat
  roiInc : Nat
  exposureMin : ℚ
  exposureMax : ℚ
  exposureInc : ℚ
  exposureCur : ℚ
  exposureProp : ℚ
  framerateCur : ℚ
  framerateMax : ℚ
  framerateMin : ℚ
  deviceExposureUs : ℚ
  deviceFramerate : ℚ
  deviceROI : Nat × Nat × Nat × Nat
  lastPeakStatus : PeakStatus
deriving DecidableEq

/-- Constructor defaults of CIDSPeak relevant to the modelled fields. -/
def defaultCam : CamState :=
  { roiX := 0, roiY := 0,
    imgWidth := 512, imgHeight := 512,
    multiROIXs := [], multiROIYs := [], multiROIWidths := [], multiROIHeights := [],
    cameraCCDXSize := 512, cameraCCDYSize := 512,
    binSize := 1,
    roiMinSizeX := 0, roiMinSizeY := 0, roiInc := 1,
    exposureMin := 0, exposureMax := 10000, exposureInc := 1, exposureCur := 10,
    exposureProp := 10,
    framerateCur := 10, framerateMax := 200, framerateMin := 1/10,
    deviceExposureUs := 10000, deviceFramerate := 10,
    deviceROI := (0, 0, 512, 512),
    lastPeakStatus := PeakStatus.success }

/-! ### Geometry store: SetROI family -/

structure SetROIResult where
  ret : Int
  state : CamState
deriving DecidableEq

/-- Model of `CIDSPeak::ResizeImageBuffer`: buffer becomes CCD size divided by binning. -/
def ResizeImageBuffer (s : CamState) : CamState :=
  { s with imgWidth := s.cameraCCDXSize / s.binSize,
           imgHeight := s.cameraCCDYSize / s.binSize }

/-- The four `multiROI*_.clear()` calls at the top of `SetROI`. -/
def clearMultiROI (s : CamState) : CamState :=
  { s with multiROIXs := [], multiROIYs := [], multiROIWidths := [], multiROIHeights := [] }

/-- The size adjustment in `SetROI`: raise the request to the minimum size,
then reduce it to a multiple of the increment
(`if (xSize < roiMinSizeX_) xSize = roiMinSizeX_; xSize -= xSize % roiInc_`). -/
def roiSnap (inc minS req : Nat) : Nat :=
  (if req < minS then minS else req) - (if req < minS then minS else req) % inc

/-- The offset adjustment in `SetROI`: push the offset back in when
`offset + size` leaves the sensor
(`if (x + xSize > cameraCCDXSize_) x = cameraCCDXSize_ - xSize`), in
unsigned-int arithmetic. -/
def roiShift (ccd off size : Nat) : Nat :=
  if uadd32 off size > ccd then usub32 ccd size else off

/-- Model of `CIDSPeak::SetROI`.  `roiAccess` is the device ROI access mode,
`pushStatus` the status the device returns for `peak_ROI_Set` (which the code
stores into `status` and otherwise ignores). -/
def SetROI (s : CamState) (roiAccess : PeakAccess) (pushStatus : PeakStatus)
    (x y xSize ySize : Nat) : SetROIResult :=
  if roiAccess = PeakAccess.readWrite then
    let s1 := clearMultiROI s
    if xSize = 0 ∧ ySize = 0 then
      let s2 := { ResizeImageBuffer s1 with roiX := 0, roiY := 0 }
      { ret := DEVICE_OK,
        state := { s2 with
                   deviceROI := (0, 0, s.cameraCCDXSize, s.cameraCCDYSize),
                   lastPeakStatus := pushStatus } }
    else
      let xs2 := roiSnap s.roiInc s.roiMinSizeX xSize
      let ys2 := roiSnap s.roiInc s.roiMinSizeY ySize
      let x1 := roiShift s.cameraCCDXSize x xs2
      let y1 := roiShift s.cameraCCDYSize y ys2
      { ret := DEVICE_OK,
        state := { s1 with
                   imgWidth := xs2, imgHeight := ys2, roiX := x1, roiY := y1,
                   deviceROI := (x1, y1, xs2, ys2), lastPeakStatus := pushStatus } }
  else { ret := DEVICE_CAN_NOT_SET_PROPERTY, state := s }

/-- Model of `CIDSPeak::GetROI`: last applied offset plus the buffer's current size. -/
def GetROI (s : CamState) : Nat × Nat × Nat × Nat :=
  (s.roiX, s.roiY, s.imgWidth, s.imgHeight)

/-! ### Geometry store: multi-ROI -/

structure Rect where
  x : Nat
  y : Nat
  w : Nat
  h : Nat
deriving DecidableEq

/-- The four running bounds of the `SetMultiROI` loop. -/
structure Bounds where
  minX : Nat
  minY : Nat
  maxX : Nat
  maxY : Nat
deriving DecidableEq

/-- One iteration of the bounding-box loop in `CIDSPeak::SetMultiROI`. -/
def boundsStep (b : Bounds) (r : Rect) : Bounds :=
  { minX := if b.minX > r.x then r.x else b.minX,
    minY := if b.minY > r.y then r.y else b.minY,
    maxX := if uadd32 r.x r.w > b.maxX then uadd32 r.x r.w else b.maxX,
    maxY := if uadd32 r.y r.h > b.maxY then uadd32 r.y r.h else b.maxY }

/-- Loop initialisation: `minX = minY = UINT_MAX`, `maxX = maxY = 0`. -/
def initBounds : Bounds :=
  { minX := UINT_MAX, minY := UINT_MAX, maxX := 0, maxY := 0 }

/-- Model of `CIDSPeak::SetMultiROI`: records the rectangles, resizes the buffer to
their bounding box and stores the bounding offset. -/
def SetMultiROI (s : CamState) (rects : List Rect) : Int × CamState :=
  let b := rects.foldl boundsStep initBounds
  (DEVICE_OK,
   { s with
     multiROIXs := rects.map Rect.x,
     multiROIYs := rects.map Rect.y,
     multiROIWidths := rects.map Rect.w,
     multiROIHeights := rects.map Rect.h,
     imgWidth := usub32 b.maxX b.minX,
     imgHeight := usub32 b.maxY b.minY,
     roiX := b.minX, roiY := b.minY })

/-- The rectangle list recorded in the four parallel vectors. -/
def storedRects (s : CamState) : List Rect :=
  List.zipWith (fun p q => { x := p.1, y := p.2, w := q.1, h := q.2 })
    (s.multiROIXs.zip s.multiROIYs) (s.multiROIWidths.zip s.multiROIHeights)

/-- Model of `CIDSPeak::GetMultiROI` with caller arrays of length `cap`: fails with
`DEVICE_INTERNAL_INCONSISTENCY` when the stored set does not fit, otherwise
returns the stored rectangles and writes the count back. -/
def GetMultiROI (s : CamState) (cap : Nat) : Int × Option (List Rect × Nat) :=
  let roiCount := s.multiROIXs.length
  if roiCount > cap then (DEVICE_INTERNAL_INCONSISTENCY, none)
  else (DEVICE_OK, some (storedRects s, roiCount))

/-! ### Rate governor: SetExposure and framerateSet -/

/-- The microsecond value `CIDSPeak::SetExposure` writes to
`peak_ExposureTime_Set` for a millisecond request `msExp`:
the raw request is compared against the bounds, and only the middle branch
uses the increment-rounded value `ceil(exp / inc) * inc * 1000`. -/
def exposureWrittenUs (s : CamState) (msExp : ℚ) : ℚ :=
  if msExp ≤ s.exposureMin then s.exposureMin * 1000
  else if msExp ≥ s.exposureMax then s.exposureMax * 1000
  else (⌈msExp / s.exposureInc⌉ : ℚ) * s.exposureInc * 1000

/-- Model of `CIDSPeak::SetExposure`.  The device stores exposure in microseconds and
`peak_ExposureTime_Get` returns that stored value; the code assigns it to
`exposureCur_` without converting back to milliseconds, and republishes
`exposureCur_ / 1000` to the MM Exposure property. -/
def SetExposure (s : CamState) (expAccess : PeakAccess) (msExp : ℚ) : CamState :=
  if expAccess = PeakAccess.readWrite then
    let written := exposureWrittenUs s msExp
    { s with
      deviceExposureUs := written,
      exposureCur := written,
      exposureProp := written / 1000 }
  else s

/-- The adjusted inter-frame interval computed by `CIDSPeak::framerateSet`:
raised to at least `exposureCur_ + 0.5`, then raised to `1000 / framerateMax_`
when the implied rate would exceed the maximum. -/
def framerateAdjInterval (s : CamState) (intervalMs : ℚ) : ℚ :=
  let i1 := if intervalMs < s.exposureCur + 1/2 then s.exposureCur + 1/2 else intervalMs
  if 1000 / i1 > s.framerateMax then 1000 / s.framerateMax else i1

/-- Model of `CIDSPeak::framerateSet`.  `writeStatus` is the status returned by
`peak_FrameRate_Set`; note `framerateCur_` is updated before that status is
checked, so it changes even when the device write fails. -/
def framerateSet (s : CamState) (writeStatus : PeakStatus) (intervalMs : ℚ) :
    Int × CamState :=
  let adj := framerateAdjInterval s intervalMs
  let s1 := { s with
              framerateCur := 1000 / adj,
              deviceFramerate :=
                if writeStatus = PeakStatus.success then 1000 / adj else s.deviceFramerate }
  if writeStatus ≠ PeakStatus.success then (ERR_NO_WRITE_ACCESS, s1) else (DEVICE_OK, s1)

/-! ### Acquisition worker state machine -/

/-- The `MySequenceThread` fields relevant to the claims.  `threadActive`
records whether the worker thread is between `activate()` and the end of
`svc()`; `stopFlag` is `stop_`. -/
structure ThreadState where
  stopFlag : Bool
  threadActive : Bool
  numImages : Int
  intervalMs : ℚ
  imageCounter : Int
  startTime : ℚ
  suspendFlag : Bool
deriving DecidableEq

/-- Model of `MySequenceThread::IsStopped`: reads only the stop flag. -/
def IsStopped (t : ThreadState) : Bool := t.stopFlag

structure AcqState where
  thd : ThreadState
  cam : CamState
  camImageCounter : Int
  sequenceStartTime : ℚ
  stopOnOverflow : Bool
deriving DecidableEq

/-- Model of `CIDSPeak::IsCapturing`: `!thd_->IsStopped()`. -/
def IsCapturing (a : AcqState) : Bool := !(IsStopped a.thd)

/-- Model of `MySequenceThread::Start`. -/
def threadStart (t : ThreadState) (numImages : Int) (intervalMs : ℚ) (now : ℚ) :
    ThreadState :=
  { t with
    numImages := numImages, intervalMs := intervalMs, imageCounter := 0,
    stopFlag := false, suspendFlag := false, threadActive := true, startTime := now }

/-- Model of `CIDSPeak::StartSequenceAcquisition(long, double, bool)`.
`frWriteStatus` is the device status for the frame-rate write inside
`framerateSet` (whose return value the code discards), `prepareRet` the
result of `GetCoreCallback()->PrepareForAcq`, `now` the current time. -/
def StartSequenceAcquisition (a : AcqState) (frWriteStatus : PeakStatus)
    (prepareRet : Int) (now : ℚ) (numImages : Int) (intervalMs : ℚ)
    (stopOnOverflow : Bool) : Int × AcqState :=
  if IsCapturing a then (DEVICE_CAMERA_BUSY_ACQUIRING, a)
  else
    let a1 := { a with cam := (framerateSet a.cam frWriteStatus intervalMs).2 }
    if prepareRet ≠ DEVICE_OK then (prepareRet, a1)
    else
      (DEVICE_OK,
       { a1 with
         sequenceStartTime := now,
         camImageCounter := 0,
         thd := threadStart a1.thd numImages intervalMs now,
         stopOnOverflow := stopOnOverflow })

/-! ### Worker loop (RunSequenceOnThread / MySequenceThread::svc) -/

/-- The external inputs consumed by one iteration of
`CIDSPeak::RunSequenceOnThread`: the frame-wait status, the results of
`transferBuffer` and `InsertImage`, the `peak_Frame_Release` status, and the
result of `updateAutoWhiteBalance`. -/
structure IterInput where
  waitStatus : PeakStatus
  transferRet : Int
  insertRet : Int
  releaseStatus : PeakStatus
  awbRet : Int
deriving DecidableEq

/-- Model of `CIDSPeak::RunSequenceOnThread`: any non-success frame wait (timeout,
abort or error alike) returns `DEVICE_ERR` immediately — there is no retry. -/
def RunSequenceOnThread (it : IterInput) : Int :=
  if it.waitStatus ≠ PeakStatus.success then DEVICE_ERR
  else if it.transferRet ≠ DEVICE_OK then DEVICE_ERR
  else if it.insertRet ≠ DEVICE_OK then DEVICE_ERR
  else if it.releaseStatus ≠ PeakStatus.success then DEVICE_ERR
  else it.awbRet

/-- Outcome of `MySequenceThread::svc`. -/
structure SvcResult where
  nRet : Int
  imageCounter : Int
  acqStopCalled : Bool
  stopFlagAtExit : Bool
  finishedCount : Nat
deriving DecidableEq

/-- The do-while loop of `MySequenceThread::svc`:
`do { nRet = RunSequenceOnThread(); }
 while (nRet == DEVICE_OK && !IsStopped() && imageCounter_++ < numImages_ - 1)`.
`iters` supplies the per-iteration device inputs, `stopSig k` the value of the
stop flag when it is read after iteration `k`.  Returns the final `nRet`, the
final `imageCounter_` and the index of the stop-flag read after the loop. -/
def svcLoop : List IterInput → (Nat → Bool) → Nat → Int → Int → Int × Int × Nat
  | [], _, idx, c, _ => (DEVICE_ERR, c, idx)
  | it :: rest, stopSig, idx, c, n =>
    let r := RunSequenceOnThread it
    if r = DEVICE_OK then
      if stopSig idx then (r, c, idx + 1)
      else if c < n - 1 then svcLoop rest stopSig (idx + 1) (c + 1) n
      else (r, c + 1, idx + 1)
    else (r, c, idx + 1)

/-- Model of `MySequenceThread::svc` after a successful `peak_Acquisition_Start`:
runs the loop, calls `peak_Acquisition_Stop` when the stop flag is set, then
sets `stop_ = true` and calls `OnThreadExiting` (which fires the "finished"
notification) exactly once on every exit path. -/
def svc (iters : List IterInput) (stopSig : Nat → Bool) (numImages : Int) :
    SvcResult :=
  let out := svcLoop iters stopSig 0 0 numImages
  { nRet := out.1,
    imageCounter := out.2.1,
    acqStopCalled := stopSig out.2.2,
    stopFlagAtExit := true,
    finishedCount := 1 }

/-! ### Single-shot wait loop (SnapImage) -/

/-- The frame-wait loop of `CIDSPeak::SnapImage` for its single pending frame:
`waits` is the sequence of `peak_Acquisition_WaitForFrame` statuses, `cur` the
current `nRet` (from `framerateSet`), `tr` the result `transferBuffer` would
return, `rel` whether `peak_Frame_Release` succeeds, `tc` the running
`timeoutCount`.  A timeout increments the counter and retries unless the
count exceeds 99; `none` models the call blocking with no further wait
results. -/
def snapImageLoop : List PeakStatus → Int → Int → Bool → Nat → Option Int
  | [], _, _, _, _ => none
  | w :: rest, cur, tr, rel, tc =>
    match w with
    | PeakStatus.timeout =>
      if tc + 1 > 99 then some ERR_ACQ_TIMEOUT else snapImageLoop rest cur tr rel (tc + 1)
    | PeakStatus.aborted => some cur
    | PeakStatus.otherError => some ERR_ACQ_FRAME
    | PeakStatus.success => if rel then some tr else some ERR_ACQ_RELEASE

/-! ### Concrete states used in scenarios and counterexamples -/

/-- Sensor 512×512, size increment 4, minimum ROI size 16×16. -/
def camC2 : CamState :=
  { defaultCam with roiMinSizeX := 16, roiMinSizeY := 16, roiInc := 4 }

/-- Exposure range 0.1 ms – 1000 ms with increment 0.1 ms. -/
def camC3 : CamState :=
  { defaultCam with exposureMin := 1/10, exposureMax := 1000, exposureInc := 1/10 }

/-- Exposure range 0.1 ms – 1000 ms with increment 0.7 ms (the increment does
not divide the maximum). -/
def camC7b : CamState :=
  { defaultCam with exposureMin := 1/10, exposureMax := 1000, exposureInc := 7/10 }

/-- A worker iteration where every device interaction succeeds. -/
def okIter : IterInput :=
  { waitStatus := PeakStatus.success, transferRet := DEVICE_OK, insertRet := DEVICE_OK,
    releaseStatus := PeakStatus.success, awbRet := DEVICE_OK }

/-- A worker iteration whose frame wait times out. -/
def timeoutIter : IterInput := { okIter with waitStatus := PeakStatus.timeout }

/-- A stop flag that is never raised. -/
def noStop : Nat → Bool := fun _ => false

/-- An adapter in the Stopping state: the stop flag has been raised by
`MySequenceThread::Stop`, but the worker thread is still draining. -/
def acqStopping : AcqState :=
  { thd := { stopFlag := true, threadActive := true, numImages := 7, intervalMs := 100,
             imageCounter := 42, startTime := 0, suspendFlag := false },
    cam := defaultCam, camImageCounter := 42, sequenceStartTime := 0,
    stopOnOverflow := false }

/-- An adapter in the Running state: the stop flag is unset and the worker
thread is active. -/
def acqRunning : AcqState :=
  { acqStopping with thd := { acqStopping.thd with stopFlag := false } }

/-! ## Helper lemmas -/

theorem uadd32_eq (a b : Nat) (h : a + b < U32MOD) : uadd32 a b = a + b := by
  simp only [uadd32]
  exact Nat.mod_eq_of_lt h

theorem usub32_eq (a b : Nat) (hba : b ≤ a) (ha : a < U32MOD) : usub32 a b = a - b := by
  simp only [usub32]
  have h1 : a + U32MOD - b = U32MOD + (a - b) := by omega
  rw [h1, Nat.add_mod_left, Nat.mod_eq_of_lt (by omega)]

/-- Per-axis facts about the `SetROI` size/offset adjustment, under device
consistency (positive increment dividing the minimum size, minimum within the
sensor) and request validity (request and offset within the sensor). -/
theorem roiAxisFacts (inc minS ccd req off : Nat) (hinc : 0 < inc)
    (hd : inc ∣ minS) (hmin : minS ≤ ccd) (hreq : req ≤ ccd) (hoff : off ≤ ccd)
    (hccd : 2 * ccd < U32MOD) :
    inc ∣ roiSnap inc minS req ∧ minS ≤ roiSnap inc minS req ∧
    roiShift ccd off (roiSnap inc minS req) + roiSnap inc minS req ≤ ccd ∧
    roiSnap inc minS req ≤ ccd := by
  have hs1min : minS ≤ (if req < minS then minS else req) := by
    split <;> omega
  have hs1ccd : (if req < minS then minS else req) ≤ ccd := by
    split <;> omega
  have hmod : (if req < minS then minS else req) % inc +
      inc * ((if req < minS then minS else req) / inc) =
      (if req < minS then minS else req) := Nat.mod_add_div _ _
  have hs2eq : roiSnap inc minS req =
      inc * ((if req < minS then minS else req) / inc) := by
    simp only [roiSnap]
    omega
  have hdvd : inc ∣ roiSnap inc minS req := Dvd.intro _ hs2eq.symm
  obtain ⟨m, hm⟩ := hd
  have hmle : m ≤ (if req < minS then minS else req) / inc := by
    rw [Nat.le_div_iff_mul_le hinc]
    calc m * inc = inc * m := Nat.mul_comm m inc
    _ = minS := hm.symm
    _ ≤ _ := hs1min
  have hminS2 : minS ≤ roiSnap inc minS req := by
    rw [hs2eq]
    calc minS = inc * m := hm
    _ ≤ inc * ((if req < minS then minS else req) / inc) := Nat.mul_le_mul le_rfl hmle
  have hs2s1 : roiSnap inc minS req ≤ (if req < minS then minS else req) := by
    simp only [roiSnap]
    omega
  have hs2ccd : roiSnap inc minS req ≤ ccd := le_trans hs2s1 hs1ccd
  have haddlt : off + roiSnap inc minS req < U32MOD := by omega
  have hadd : uadd32 off (roiSnap inc minS req) = off + roiSnap inc minS req :=
    uadd32_eq _ _ haddlt
  have hsub : usub32 ccd (roiSnap inc minS req) = ccd - roiSnap inc minS req :=
    usub32_eq _ _ hs2ccd (by omega)
  have hshift : roiShift ccd off (roiSnap inc minS req) + roiSnap inc minS req ≤ ccd := by
    simp only [roiShift, hadd]
    split
    · rw [hsub]
      omega
    · omega
  exact ⟨hdvd, hminS2, hshift, hs2ccd⟩

/-! ## Claims -/

/-- C2 (counterexample): with sensor bounds 512×512, size increment 4 and
minimum size 16×16, `SetROI(10, 10, 18, 18)` leaves the in-bounds offset at
(10, 10); the applied offset is not the (8, 8) stated by the claim. -/
theorem C2_offset_not_snapped :
    (SetROI camC2 PeakAccess.readWrite PeakStatus.success 10 10 18 18).state.roiX = 10 ∧
    (SetROI camC2 PeakAccess.readWrite PeakStatus.success 10 10 18 18).state.roiX ≠ 8 := by
  decide

/-- C2 (amended): with sensor bounds 512×512, size increment 4 and minimum
size 16×16, `SetROI(10, 10, 18, 18)` succeeds and yields the applied
rectangle (offset x = 10, offset y = 10, width = 16, height = 16): the
offset is unchanged since the request is in bounds, and the sizes are
snapped down to the multiple-of-4 value 16, which equals the minimum. -/
theorem C2_applied_rect :
    (SetROI camC2 PeakAccess.readWrite PeakStatus.success 10 10 18 18).ret = DEVICE_OK ∧
    GetROI (SetROI camC2 PeakAccess.readWrite PeakStatus.success 10 10 18 18).state =
      (10, 10, 16, 16) ∧
    (SetROI camC2 PeakAccess.readWrite PeakStatus.success 10 10 18 18).state.deviceROI =
      (10, 10, 16, 16) := by
  decide

/-- C3 (code bug): after a successful `SetExposure(10)` on a device with
exposure range 0.1–1000 ms and increment 0.1 ms, the cached current exposure
`exposureCur_` holds the re-read device value in microseconds (10000) because
the code omits the division by 1000 performed everywhere else, so the
invariant `exposure_min <= exposure_current <= exposure_max` fails even
though the republished property value (10 ms) is correct. -/
theorem C3_exposure_invariant_broken :
    (SetExposure camC3 PeakAccess.readWrite 10).exposureCur = 10000 ∧
    ¬((SetExposure camC3 PeakAccess.readWrite 10).exposureCur ≤ camC3.exposureMax) ∧
    (SetExposure camC3 PeakAccess.readWrite 10).exposureProp = 10 ∧
    camC3.exposureMin ≤ 10 ∧ (10 : ℚ) ≤ camC3.exposureMax := by
  have hc : (⌈(10 : ℚ) / (1 / 10)⌉ : ℤ) = 100 := by
    rw [Int.ceil_eq_iff]
    norm_num
  refine ⟨?_, ?_, ?_, by norm_num [camC3, defaultCam], by norm_num [camC3, defaultCam]⟩ <;>
    norm_num [SetExposure, exposureWrittenUs, camC3, defaultCam, hc]

/-- C4 (counterexample): `framerateSet` updates the cached current frame rate
before checking the device write status, so a failed frame-rate write returns
`ERR_NO_WRITE_ACCESS` yet still changes `framerateCur_` (here from 10 to 20),
refuting the claim that error-returning configuration operations leave all
adapter state unchanged. -/
theorem C4_framerate_cache_mutated_on_error :
    (framerateSet defaultCam PeakStatus.otherError 50).1 = ERR_NO_WRITE_ACCESS ∧
    (framerateSet defaultCam PeakStatus.otherError 50).2.framerateCur = 20 ∧
    defaultCam.framerateCur = 10 := by
  refine ⟨?_, ?_, by norm_num [defaultCam]⟩ <;>
    norm_num [framerateSet, framerateAdjInterval, defaultCam,
      show (PeakStatus.otherError = PeakStatus.success) = False from by simp]

/-- C4 (amended): a rejected `SetROI` request (geometry not writable) returns
an error and leaves the entire adapter state unchanged, but `framerateSet` is
not atomic: when the device frame-rate write fails it returns
`ERR_NO_WRITE_ACCESS` and nevertheless sets the cached current frame rate to
`1000 / adjustedIntervalMs`. -/
theorem C4_atomicity_amended (s : CamState) (p : PeakStatus) (acc : PeakAccess)
    (x y xSize ySize : Nat) (ws : PeakStatus) (i : ℚ)
    (hacc : acc ≠ PeakAccess.readWrite) (hws : ws ≠ PeakStatus.success) :
    SetROI s acc p x y xSize ySize =
      { ret := DEVICE_CAN_NOT_SET_PROPERTY, state := s } ∧
    (framerateSet s ws i).1 = ERR_NO_WRITE_ACCESS ∧
    (framerateSet s ws i).2.framerateCur = 1000 / framerateAdjInterval s i := by
  refine ⟨?_, ?_, ?_⟩
  · simp [SetROI, hacc]
  · simp [framerateSet, hws]
  · simp [framerateSet, hws]

/-- C4 (witness): concrete instance of the amended claim. -/
theorem C4_atomicity_amended_witness :
    PeakAccess.readOnly ≠ PeakAccess.readWrite ∧
    PeakStatus.otherError ≠ PeakStatus.success ∧
    SetROI defaultCam PeakAccess.readOnly PeakStatus.success 1 2 3 4 =
      { ret := DEVICE_CAN_NOT_SET_PROPERTY, state := defaultCam } ∧
    (framerateSet defaultCam PeakStatus.otherError 50).1 = ERR_NO_WRITE_ACCESS :=
  ⟨by decide, by decide,
   (C4_atomicity_amended defaultCam PeakStatus.success PeakAccess.readOnly 1 2 3 4
      PeakStatus.otherError 50 (by decide) (by decide)).1,
   (C4_atomicity_amended defaultCam PeakStatus.success PeakAccess.readOnly 1 2 3 4
      PeakStatus.otherError 50 (by decide) (by decide)).2.1⟩

/-- C9 (counterexample): in the Stopping state (stop flag raised while the
worker is still draining), `IsCapturing()` is already false, so
`StartSequenceAcquisition` is accepted instead of failing with `Busy`, and it
resets the existing run's frame counter and target count. -/
theorem C9_start_accepted_while_stopping :
    acqStopping.thd.stopFlag = true ∧
    acqStopping.thd.threadActive = true ∧
    (StartSequenceAcquisition acqStopping PeakStatus.success DEVICE_OK 5 3 50 false).1 =
      DEVICE_OK ∧
    (StartSequenceAcquisition acqStopping PeakStatus.success DEVICE_OK 5 3 50 false).1 ≠
      DEVICE_CAMERA_BUSY_ACQUIRING ∧
    (StartSequenceAcquisition acqStopping PeakStatus.success DEVICE_OK 5 3 50 false).2.thd.imageCounter = 0 ∧
    acqStopping.thd.imageCounter = 42 ∧
    (StartSequenceAcquisition acqStopping PeakStatus.success DEVICE_OK 5 3 50 false).2.thd.numImages = 3 ∧
    acqStopping.thd.numImages = 7 := by
  decide

/-- C9 (amended): whenever the stop flag is unset — in particular in every
Running state — `StartSequenceAcquisition` fails with
`DEVICE_CAMERA_BUSY_ACQUIRING` and returns the adapter state completely
unchanged; the Busy rejection is keyed on the stop flag alone, so it does not
cover the Stopping window. -/
theorem C9_busy_when_running (a : AcqState) (ws : PeakStatus) (pr : Int)
    (now : ℚ) (n : Int) (i : ℚ) (so : Bool) (h : a.thd.stopFlag = false) :
    StartSequenceAcquisition a ws pr now n i so = (DEVICE_CAMERA_BUSY_ACQUIRING, a) := by
  simp [StartSequenceAcquisition, IsCapturing, IsStopped, h]

/-- C9 (witness): concrete Running state rejected with Busy and unchanged. -/
theorem C9_busy_when_running_witness :
    acqRunning.thd.stopFlag = false ∧
    StartSequenceAcquisition acqRunning PeakStatus.success DEVICE_OK 5 3 50 false =
      (DEVICE_CAMERA_BUSY_ACQUIRING, acqRunning) :=
  ⟨rfl, C9_busy_when_running acqRunning PeakStatus.success DEVICE_OK 5 3 50 false rfl⟩

/-- C10: when device geometry is writable, `SetROI` returns `DEVICE_OK`
regardless of the status the device returns for the pushed rectangle: the
resulting adapter state is the same as on a successful push except for the
recorded device status, so the buffer resize and stored offsets take effect
and success is reported even if the device rejected the rectangle. -/
theorem C10_device_push_status_ignored (s : CamState) (p : PeakStatus)
    (x y xSize ySize : Nat) :
    (SetROI s PeakAccess.readWrite p x y xSize ySize).ret = DEVICE_OK ∧
    (SetROI s PeakAccess.readWrite p x y xSize ySize).state =
      { (SetROI s PeakAccess.readWrite PeakStatus.success x y xSize ySize).state with
        lastPeakStatus := p } := by
  by_cases h : xSize = 0 ∧ ySize = 0 <;> simp [SetROI, h]

/-- Facts about the second clamp of `framerateSet`: the interval is raised to
`1000 / framerateMax_` exactly when the implied rate would exceed the
maximum, so the final rate never exceeds the maximum and the final interval
never shrinks. -/
theorem rateClampFacts (i1 fmax : ℚ) (hi1 : 0 < i1) (hf : 0 < fmax) :
    i1 ≤ (if 1000 / i1 > fmax then 1000 / fmax else i1) ∧
    0 < (if 1000 / i1 > fmax then 1000 / fmax else i1) ∧
    1000 / (if 1000 / i1 > fmax then 1000 / fmax else i1) ≤ fmax ∧
    1000 / (1000 / (if 1000 / i1 > fmax then 1000 / fmax else i1)) =
      (if 1000 / i1 > fmax then 1000 / fmax else i1) := by
  have hone : (1000 : ℚ) / (1000 / fmax) = fmax := by
    rw [div_div_eq_mul_div, mul_comm, mul_div_assoc]
    norm_num
  by_cases hd : 1000 / i1 > fmax
  · rw [if_pos hd]
    have h2 : fmax * i1 < 1000 := (lt_div_iff₀ hi1).mp hd
    have hlt : i1 < 1000 / fmax := (lt_div_iff₀ hf).mpr (by linarith [mul_comm fmax i1])
    refine ⟨le_of_lt hlt, by positivity, le_of_eq hone, ?_⟩
    rw [hone]
  · rw [if_neg hd]
    push_neg at hd
    have hii : (1000 : ℚ) / (1000 / i1) = i1 := by
      rw [div_div_eq_mul_div, mul_comm, mul_div_assoc]
      norm_num
    exact ⟨le_rfl, hi1, hd, hii⟩

/-- The first clamp of `framerateSet` raises the interval to at least
`exposureCur_ + 0.5` and never lowers it. -/
theorem firstClampFacts (e i : ℚ) :
    e ≤ (if i < e then e else i) ∧ i ≤ (if i < e then e else i) := by
  by_cases h : i < e
  · rw [if_pos h]
    exact ⟨le_rfl, le_of_lt h⟩
  · rw [if_neg h]
    exact ⟨le_of_not_lt h, le_rfl⟩

/-- C5: for every requested interval, the rate governor's applied frame rate
equals `1000 / adjustedIntervalMs`, where the adjusted interval is the
request raised first to at least `exposureCur_ + 0.5` and then to at least
`1000 / framerateMax_`; consequently the cached rate never exceeds
`framerateMax_` and the interval it implies is never shorter than
`exposureCur_ + 0.5` (and never shorter than the request). -/
theorem C5_rate_governor_bounds (s : CamState) (ws : PeakStatus) (i : ℚ)
    (hexp : 0 ≤ s.exposureCur) (hmax : 0 < s.framerateMax) :
    (framerateSet s ws i).2.framerateCur = 1000 / framerateAdjInterval s i ∧
    i ≤ framerateAdjInterval s i ∧
    s.exposureCur + 1/2 ≤ framerateAdjInterval s i ∧
    (framerateSet s ws i).2.framerateCur ≤ s.framerateMax ∧
    1000 / (framerateSet s ws i).2.framerateCur = framerateAdjInterval s i := by
  have hcur : (framerateSet s ws i).2.framerateCur = 1000 / framerateAdjInterval s i := by
    by_cases h : ws = PeakStatus.success <;> simp [framerateSet, h]
  have hunfold : framerateAdjInterval s i =
      if 1000 / (if i < s.exposureCur + 1/2 then s.exposureCur + 1/2 else i) > s.framerateMax
      then 1000 / s.framerateMax
      else (if i < s.exposureCur + 1/2 then s.exposureCur + 1/2 else i) := by
    simp only [framerateAdjInterval]
  obtain ⟨hfc1, hfc2⟩ := firstClampFacts (s.exposureCur + 1/2) i
  have hi1pos : 0 < (if i < s.exposureCur + 1/2 then s.exposureCur + 1/2 else i) := by
    have : (0 : ℚ) < s.exposureCur + 1/2 := by linarith
    linarith
  obtain ⟨hr1, hr2, hr3, hr4⟩ :=
    rateClampFacts (if i < s.exposureCur + 1/2 then s.exposureCur + 1/2 else i)
      s.framerateMax hi1pos hmax
  refine ⟨hcur, ?_, ?_, ?_, ?_⟩
  · rw [hunfold]
    exact le_trans hfc2 hr1
  · rw [hunfold]
    exact le_trans hfc1 hr1
  · rw [hcur, hunfold]
    exact hr3
  · rw [hcur, hunfold]
    exact hr4

/-- C5 (witness): concrete instance of the rate-governor bounds. -/
theorem C5_rate_governor_bounds_witness :
    (0 : ℚ) ≤ defaultCam.exposureCur ∧ (0 : ℚ) < defaultCam.framerateMax ∧
    (framerateSet defaultCam PeakStatus.success 20).2.framerateCur ≤ defaultCam.framerateMax ∧
    defaultCam.exposureCur + 1/2 ≤ framerateAdjInterval defaultCam 20 :=
  ⟨by norm_num [defaultCam], by norm_num [defaultCam],
   (C5_rate_governor_bounds defaultCam PeakStatus.success 20
      (by norm_num [defaultCam]) (by norm_num [defaultCam])).2.2.2.1,
   (C5_rate_governor_bounds defaultCam PeakStatus.success 20
      (by norm_num [defaultCam]) (by norm_num [defaultCam])).2.2.1⟩

/-- C6: for every valid non-reset ROI request accepted by `SetROI` — the
device-reported increment is positive and divides the minimum size, the
minimum size lies within the sensor, and the requested sizes and offsets lie
within the sensor (which fits twice below 2^32) — the applied rectangle
satisfies `increment ∣ width`, `width >= minWidth` and
`offset.x + width <= sensorWidth`, and symmetrically for y/height; the
applied sizes are the buffer sizes and the offsets are shifted, not resized. -/
theorem C6_roi_wellformed (s : CamState) (p : PeakStatus) (x y xSize ySize : Nat)
    (hinc : 0 < s.roiInc)
    (hdx : s.roiInc ∣ s.roiMinSizeX) (hdy : s.roiInc ∣ s.roiMinSizeY)
    (hminx : s.roiMinSizeX ≤ s.cameraCCDXSize) (hminy : s.roiMinSizeY ≤ s.cameraCCDYSize)
    (hw : xSize ≤ s.cameraCCDXSize) (hh : ySize ≤ s.cameraCCDYSize)
    (hx : x ≤ s.cameraCCDXSize) (hy : y ≤ s.cameraCCDYSize)
    (hccdx : 2 * s.cameraCCDXSize < U32MOD) (hccdy : 2 * s.cameraCCDYSize < U32MOD)
    (hnz : ¬(xSize = 0 ∧ ySize = 0)) :
    (SetROI s PeakAccess.readWrite p x y xSize ySize).ret = DEVICE_OK ∧
    s.roiInc ∣ (SetROI s PeakAccess.readWrite p x y xSize ySize).state.imgWidth ∧
    s.roiMinSizeX ≤ (SetROI s PeakAccess.readWrite p x y xSize ySize).state.imgWidth ∧
    (SetROI s PeakAccess.readWrite p x y xSize ySize).state.roiX +
      (SetROI s PeakAccess.readWrite p x y xSize ySize).state.imgWidth ≤
      s.cameraCCDXSize ∧
    s.roiInc ∣ (SetROI s PeakAccess.readWrite p x y xSize ySize).state.imgHeight ∧
    s.roiMinSizeY ≤ (SetROI s PeakAccess.readWrite p x y xSize ySize).state.imgHeight ∧
    (SetROI s PeakAccess.readWrite p x y xSize ySize).state.roiY +
      (SetROI s PeakAccess.readWrite p x y xSize ySize).state.imgHeight ≤
      s.cameraCCDYSize := by
  obtain ⟨hxd, hxm, hxb, -⟩ :=
    roiAxisFacts s.roiInc s.roiMinSizeX s.cameraCCDXSize xSize x hinc hdx hminx hw hx hccdx
  obtain ⟨hyd, hym, hyb, -⟩ :=
    roiAxisFacts s.roiInc s.roiMinSizeY s.cameraCCDYSize ySize y hinc hdy hminy hh hy hccdy
  refine ⟨?_, ?_, ?_, ?_, ?_, ?_, ?_⟩
  · simp [SetROI, hnz]
  · simpa [SetROI, hnz] using hxd
  · simpa [SetROI, hnz] using hxm
  · simpa [SetROI, hnz] using hxb
  · simpa [SetROI, hnz] using hyd
  · simpa [SetROI, hnz] using hym
  · simpa [SetROI, hnz] using hyb

/-- C6 (witness): concrete instance on the 512×512 / increment-4 /
minimum-16 sensor with the request (10, 10, 18, 18). -/
theorem C6_roi_wellformed_witness :
    0 < camC2.roiInc ∧ camC2.roiInc ∣ camC2.roiMinSizeX ∧
    camC2.roiMinSizeX ≤ camC2.cameraCCDXSize ∧
    ¬((18 : Nat) = 0 ∧ (18 : Nat) = 0) ∧
    camC2.roiInc ∣ (SetROI camC2 PeakAccess.readWrite PeakStatus.success 10 10 18 18).state.imgWidth ∧
    (SetROI camC2 PeakAccess.readWrite PeakStatus.success 10 10 18 18).state.roiX +
      (SetROI camC2 PeakAccess.readWrite PeakStatus.success 10 10 18 18).state.imgWidth ≤
      camC2.cameraCCDXSize :=
  ⟨by decide, by decide, by decide, by decide,
   (C6_roi_wellformed camC2 PeakStatus.success 10 10 18 18 (by decide) (by decide)
      (by decide) (by decide) (by decide) (by decide) (by decide) (by decide) (by decide)
      (by decide) (by decide) (by decide)).2.1,
   (C6_roi_wellformed camC2 PeakStatus.success 10 10 18 18 (by decide) (by decide)
      (by decide) (by decide) (by decide) (by decide) (by decide) (by decide) (by decide)
      (by decide) (by decide) (by decide)).2.2.2.1⟩

/-- C7 (counterexample): with exposure range 0.1–1000 ms and increment
0.7 ms, the request 999.9 ms lies strictly inside the range, so `SetExposure`
writes the increment-rounded value 1429 × 0.7 × 1000 = 1000300 µs to the
device — strictly above `exposure_max` in device units (1000000 µs) — because
the code clamps the raw request rather than the rounded value, refuting the
claim that the rounded result is clamped into `[min, max]` before writing. -/
theorem C7_rounded_exceeds_max :
    camC7b.exposureMin < 9999/10 ∧ (9999/10 : ℚ) < camC7b.exposureMax ∧
    (SetExposure camC7b PeakAccess.readWrite (9999/10)).deviceExposureUs = 1000300 ∧
    camC7b.exposureMax * 1000 = 1000000 ∧
    ¬((SetExposure camC7b PeakAccess.readWrite (9999/10)).deviceExposureUs ≤
        camC7b.exposureMax * 1000) := by
  have hc : (⌈(9999 : ℚ) / 7⌉ : ℤ) = 1429 := by
    rw [Int.ceil_eq_iff]
    norm_num
  refine ⟨by norm_num [camC7b, defaultCam], by norm_num [camC7b, defaultCam], ?_,
    by norm_num [camC7b, defaultCam], ?_⟩ <;>
    norm_num [SetExposure, exposureWrittenUs, camC7b, defaultCam, hc]

/-- C7 (amended): `SetExposure` clamps the raw request, not the rounded
value: a request at or below the minimum writes exactly the minimum, a
request at or above the maximum writes exactly the maximum, and a request
strictly between them writes the request rounded up to the increment (in
device microseconds), a value at least the request itself but possibly above
the maximum.  In particular, with increment 0.1 ms, minimum 0.1 ms and
maximum 1000 ms, `SetExposure(0.03)` makes the applied exposure exactly
0.1 ms (the minimum), not 0. -/
theorem C7_exposure_clamp_amended (s : CamState) (msExp : ℚ)
    (hinc : 0 < s.exposureInc) (hmm : s.exposureMin ≤ s.exposureMax) :
    (msExp ≤ s.exposureMin →
      (SetExposure s PeakAccess.readWrite msExp).deviceExposureUs = s.exposureMin * 1000) ∧
    (s.exposureMax ≤ msExp →
      (SetExposure s PeakAccess.readWrite msExp).deviceExposureUs = s.exposureMax * 1000) ∧
    (s.exposureMin < msExp → msExp < s.exposureMax →
      (SetExposure s PeakAccess.readWrite msExp).deviceExposureUs =
        (⌈msExp / s.exposureInc⌉ : ℚ) * s.exposureInc * 1000 ∧
      msExp * 1000 ≤ (SetExposure s PeakAccess.readWrite msExp).deviceExposureUs) ∧
    (SetExposure camC3 PeakAccess.readWrite (3/100)).deviceExposureUs = 100 ∧
    (SetExposure camC3 PeakAccess.readWrite (3/100)).exposureProp = 1/10 ∧
    (SetExposure camC3 PeakAccess.readWrite (3/100)).exposureProp ≠ 0 := by
  refine ⟨?_, ?_, ?_, ?_, ?_, ?_⟩
  · intro h
    simp [SetExposure, exposureWrittenUs, h]
  · intro h
    by_cases h2 : msExp ≤ s.exposureMin
    · have heq : s.exposureMin = s.exposureMax := le_antisymm hmm (le_trans h h2)
      have hval : (SetExposure s PeakAccess.readWrite msExp).deviceExposureUs =
          s.exposureMin * 1000 := by
        simp [SetExposure, exposureWrittenUs, h2]
      rw [hval, heq]
    · simp [SetExposure, exposureWrittenUs, h2, ge_iff_le, h]
  · intro h1 h2
    have hb1 : ¬(msExp ≤ s.exposureMin) := not_le.mpr h1
    have hb2 : ¬(s.exposureMax ≤ msExp) := not_le.mpr h2
    constructor
    · simp [SetExposure, exposureWrittenUs, hb1, ge_iff_le, hb2]
    · have hle : msExp / s.exposureInc ≤ (⌈msExp / s.exposureInc⌉ : ℚ) :=
        Int.le_ceil _
      have hmul : msExp ≤ (⌈msExp / s.exposureInc⌉ : ℚ) * s.exposureInc := by
        have := mul_le_mul_of_nonneg_right hle (le_of_lt hinc)
        rwa [div_mul_cancel₀ _ (ne_of_gt hinc)] at this
      simp only [SetExposure, exposureWrittenUs, hb1, ge_iff_le, hb2, if_false,
        if_neg, reduceIte]
      calc msExp * 1000 ≤ (⌈msExp / s.exposureInc⌉ : ℚ) * s.exposureInc * 1000 := by
            nlinarith [hmul]
      _ = _ := by
            simp [exposureWrittenUs, hb1, ge_iff_le, hb2]
  · norm_num [SetExposure, exposureWrittenUs, camC3, defaultCam]
  · norm_num [SetExposure, exposureWrittenUs, camC3, defaultCam]
  · norm_num [SetExposure, exposureWrittenUs, camC3, defaultCam]

/-- C7 (witness): concrete instance of the amended behaviour on the
0.7 ms-increment device at the in-range request 999.9 ms. -/
theorem C7_exposure_clamp_amended_witness :
    0 < camC7b.exposureInc ∧ camC7b.exposureMin < 9999/10 ∧
    (9999/10 : ℚ) < camC7b.exposureMax ∧
    (9999/10 : ℚ) * 1000 ≤
      (SetExposure camC7b PeakAccess.readWrite (9999/10)).deviceExposureUs :=
  ⟨by norm_num [camC7b, defaultCam], by norm_num [camC7b, defaultCam],
   by norm_num [camC7b, defaultCam],
   ((C7_exposure_clamp_amended camC7b (9999/10)
       (by norm_num [camC7b, defaultCam]) (by norm_num [camC7b, defaultCam])).2.2.1
     (by norm_num [camC7b, defaultCam]) (by norm_num [camC7b, defaultCam])).2⟩

/-- The `SnapImage` wait loop consumes `k` leading timeouts, counting them,
as long as the running total stays at or below 99. -/
theorem snapImageLoop_timeouts (k : Nat) (tc : Nat) (h : tc + k ≤ 99)
    (rest : List PeakStatus) (cur tr : Int) (rel : Bool) :
    snapImageLoop (List.replicate k PeakStatus.timeout ++ rest) cur tr rel tc =
      snapImageLoop rest cur tr rel (tc + k) := by
  induction k generalizing tc with
  | zero => simp
  | succ m ih =>
    rw [List.replicate_succ, List.cons_append]
    show (if tc + 1 > 99 then some ERR_ACQ_TIMEOUT
          else snapImageLoop (List.replicate m PeakStatus.timeout ++ rest) cur tr rel (tc + 1)) = _
    rw [if_neg (by omega), ih (tc + 1) (by omega)]
    congr 1
    omega

/-- C1 (counterexample): a run in which a single frame wait times out — well
within the claimed 99-timeout tolerance — does not keep waiting: the worker
loop exits immediately with `DEVICE_ERR` (not `ERR_ACQ_TIMEOUT`) after zero
inserted frames, refuting the claimed 100-attempt retry bound in the
continuous-acquisition loop. -/
theorem C1_single_timeout_aborts_run :
    (svc (timeoutIter :: List.replicate 9 okIter) noStop 5).nRet = DEVICE_ERR ∧
    (svc (timeoutIter :: List.replicate 9 okIter) noStop 5).nRet ≠ ERR_ACQ_TIMEOUT ∧
    (svc (timeoutIter :: List.replicate 9 okIter) noStop 5).imageCounter = 0 := by
  decide

/-- C1 (amended): in the continuous-acquisition worker loop a single
frame-wait timeout is fatal — the run exits at once with `DEVICE_ERR`, zero
frames counted, the stop flag set and the finished notification fired once —
while the 100-attempt retry bound belongs to the single-shot `SnapImage`
path: there, up to 99 consecutive timeouts are retried and a following
successful wait completes the capture, and the 100th consecutive timeout
returns `ERR_ACQ_TIMEOUT`. -/
theorem C1_timeout_policy :
    (∀ (rest : List IterInput) (stopSig : Nat → Bool) (n : Int),
      (svc (timeoutIter :: rest) stopSig n).nRet = DEVICE_ERR ∧
      (svc (timeoutIter :: rest) stopSig n).imageCounter = 0 ∧
      (svc (timeoutIter :: rest) stopSig n).stopFlagAtExit = true ∧
      (svc (timeoutIter :: rest) stopSig n).finishedCount = 1) ∧
    (∀ k : Nat, k ≤ 99 →
      snapImageLoop (List.replicate k PeakStatus.timeout ++ [PeakStatus.success])
        DEVICE_OK DEVICE_OK true 0 = some DEVICE_OK) ∧
    (∀ (rest : List PeakStatus) (cur tr : Int) (rel : Bool),
      snapImageLoop (List.replicate 100 PeakStatus.timeout ++ rest) cur tr rel 0 =
        some ERR_ACQ_TIMEOUT) := by
  refine ⟨?_, ?_, ?_⟩
  · intro rest stopSig n
    have hr : RunSequenceOnThread timeoutIter = DEVICE_ERR := by decide
    refine ⟨?_, ?_, rfl, rfl⟩ <;>
      simp +decide [svc, svcLoop, hr, DEVICE_ERR, DEVICE_OK]
  · intro k hk
    rw [snapImageLoop_timeouts k 0 (by omega)]
    rfl
  · intro rest cur tr rel
    have hsplit : List.replicate 100 PeakStatus.timeout ++ rest =
        List.replicate 99 PeakStatus.timeout ++ (PeakStatus.timeout :: rest) := by
      rw [List.replicate_succ' 99, List.append_assoc, List.singleton_append]
    rw [hsplit, snapImageLoop_timeouts 99 0 (by omega)]
    rfl

/-- C1 (witness): three consecutive timeouts followed by a successful wait
complete a `SnapImage` capture. -/
theorem C1_timeout_policy_witness :
    (3 : Nat) ≤ 99 ∧
    snapImageLoop (List.replicate 3 PeakStatus.timeout ++ [PeakStatus.success])
      DEVICE_OK DEVICE_OK true 0 = some DEVICE_OK :=
  ⟨by decide, C1_timeout_policy.2.1 3 (by decide)⟩

/-! Helper lemmas for the multi-ROI bounding-box loop. -/

theorem boundsStep_minX (b : Bounds) (r : Rect) :
    (boundsStep b r).minX = min b.minX r.x := by
  simp only [boundsStep]
  rcases le_or_lt b.minX r.x with h | h
  · rw [if_neg (not_lt.mpr h), min_eq_left h]
  · rw [if_pos h, min_eq_right h.le]

theorem boundsStep_minY (b : Bounds) (r : Rect) :
    (boundsStep b r).minY = min b.minY r.y := by
  simp only [boundsStep]
  rcases le_or_lt b.minY r.y with h | h
  · rw [if_neg (not_lt.mpr h), min_eq_left h]
  · rw [if_pos h, min_eq_right h.le]

theorem boundsStep_maxX (b : Bounds) (r : Rect) :
    (boundsStep b r).maxX = max b.maxX (uadd32 r.x r.w) := by
  simp only [boundsStep]
  rcases le_or_lt (uadd32 r.x r.w) b.maxX with h | h
  · rw [if_neg (not_lt.mpr h), max_eq_left h]
  · rw [if_pos h, max_eq_right h.le]

theorem boundsStep_maxY (b : Bounds) (r : Rect) :
    (boundsStep b r).maxY = max b.maxY (uadd32 r.y r.h) := by
  simp only [boundsStep]
  rcases le_or_lt (uadd32 r.y r.h) b.maxY with h | h
  · rw [if_neg (not_lt.mpr h), max_eq_left h]
  · rw [if_pos h, max_eq_right h.le]

theorem foldl_boundsStep_minX (rects : List Rect) (b : Bounds) :
    (rects.foldl boundsStep b).minX = rects.foldl (fun a r => min a r.x) b.minX := by
  induction rects generalizing b with
  | nil => rfl
  | cons r rs ih => rw [List.foldl_cons, List.foldl_cons, ih, boundsStep_minX]

theorem foldl_boundsStep_minY (rects : List Rect) (b : Bounds) :
    (rects.foldl boundsStep b).minY = rects.foldl (fun a r => min a r.y) b.minY := by
  induction rects generalizing b with
  | nil => rfl
  | cons r rs ih => rw [List.foldl_cons, List.foldl_cons, ih, boundsStep_minY]

theorem foldl_boundsStep_maxX (rects : List Rect) (b : Bounds) :
    (rects.foldl boundsStep b).maxX =
      rects.foldl (fun a r => max a (uadd32 r.x r.w)) b.maxX := by
  induction rects generalizing b with
  | nil => rfl
  | cons r rs ih => rw [List.foldl_cons, List.foldl_cons, ih, boundsStep_maxX]

theorem foldl_boundsStep_maxY (rects : List Rect) (b : Bounds) :
    (rects.foldl boundsStep b).maxY =
      rects.foldl (fun a r => max a (uadd32 r.y r.h)) b.maxY := by
  induction rects generalizing b with
  | nil => rfl
  | cons r rs ih => rw [List.foldl_cons, List.foldl_cons, ih, boundsStep_maxY]

theorem foldl_min_le_init {α : Type} (f : α → Nat) :
    ∀ (l : List α) (a : Nat), l.foldl (fun b y => min b (f y)) a ≤ a := by
  intro l
  induction l with
  | nil => intro a; exact le_rfl
  | cons z zs ih =>
    intro a
    rw [List.foldl_cons]
    exact le_trans (ih (min a (f z))) (min_le_left _ _)

theorem foldl_min_le_mem {α : Type} (f : α → Nat) (x : α) :
    ∀ (l : List α) (a : Nat), x ∈ l → l.foldl (fun b y => min b (f y)) a ≤ f x := by
  intro l
  induction l with
  | nil => intro a hx; cases hx
  | cons z zs ih =>
    intro a hx
    rw [List.foldl_cons]
    rcases List.mem_cons.mp hx with h | h
    · subst h
      exact le_trans (foldl_min_le_init f zs (min a (f x))) (min_le_right _ _)
    · exact ih _ h

theorem foldl_min_attained {α : Type} (f : α → Nat) :
    ∀ (l : List α) (a : Nat), l.foldl (fun b y => min b (f y)) a = a ∨
      ∃ x ∈ l, l.foldl (fun b y => min b (f y)) a = f x := by
  intro l
  induction l with
  | nil => intro a; exact Or.inl rfl
  | cons z zs ih =>
    intro a
    rw [List.foldl_cons]
    rcases ih (min a (f z)) with h | ⟨x, hx, hfx⟩
    · rcases min_choice a (f z) with h2 | h2
      · exact Or.inl (h.trans h2)
      · exact Or.inr ⟨z, List.mem_cons_self z zs, h.trans h2⟩
    · exact Or.inr ⟨x, List.mem_cons_of_mem z hx, hfx⟩

theorem foldl_max_ge_init {α : Type} (f : α → Nat) :
    ∀ (l : List α) (a : Nat), a ≤ l.foldl (fun b y => max b (f y)) a := by
  intro l
  induction l with
  | nil => intro a; exact le_rfl
  | cons z zs ih =>
    intro a
    rw [List.foldl_cons]
    exact le_trans (le_max_left _ _) (ih (max a (f z)))

theorem foldl_max_ge_mem {α : Type} (f : α → Nat) (x : α) :
    ∀ (l : List α) (a : Nat), x ∈ l → f x ≤ l.foldl (fun b y => max b (f y)) a := by
  intro l
  induction l with
  | nil => intro a hx; cases hx
  | cons z zs ih =>
    intro a hx
    rw [List.foldl_cons]
    rcases List.mem_cons.mp hx with h | h
    · subst h
      exact le_trans (le_max_right _ _) (foldl_max_ge_init f zs (max a (f x)))
    · exact ih _ h

theorem foldl_max_attained {α : Type} (f : α → Nat) :
    ∀ (l : List α) (a : Nat), l.foldl (fun b y => max b (f y)) a = a ∨
      ∃ x ∈ l, l.foldl (fun b y => max b (f y)) a = f x := by
  intro l
  induction l with
  | nil => intro a; exact Or.inl rfl
  | cons z zs ih =>
    intro a
    rw [List.foldl_cons]
    rcases ih (max a (f z)) with h | ⟨x, hx, hfx⟩
    · rcases max_choice a (f z) with h2 | h2
      · exact Or.inl (h.trans h2)
      · exact Or.inr ⟨z, List.mem_cons_self z zs, h.trans h2⟩
    · exact Or.inr ⟨x, List.mem_cons_of_mem z hx, hfx⟩

/-- Zipping the four projected coordinate lists back together restores the
rectangle list. -/
theorem zipRectEta (rects : List Rect) :
    List.zipWith (fun p q => { x := p.1, y := p.2, w := q.1, h := q.2 : Rect })
      ((rects.map Rect.x).zip (rects.map Rect.y))
      ((rects.map Rect.w).zip (rects.map Rect.h)) = rects := by
  induction rects with
  | nil => rfl
  | cons r rs ih => simp [ih]

/-- C8: for every non-empty list of rectangles (whose corners fit in unsigned
arithmetic), `SetMultiROI` followed by `GetMultiROI` with caller arrays at
least as long as the list returns exactly the submitted rectangles in order,
and after `SetMultiROI` the frame buffer's width and height equal the
dimensions of the minimal bounding box covering all submitted rectangles —
witnessed by bounds that dominate every rectangle and are attained by one —
with the stored offset equal to the bounding box's top-left corner. -/
theorem C8_multiROI_roundtrip_bbox (s : CamState) (rects : List Rect) (cap : Nat)
    (hne : rects ≠ [])
    (hb : ∀ r ∈ rects, r.x + r.w < U32MOD ∧ r.y + r.h < U32MOD)
    (hcap : rects.length ≤ cap) :
    GetMultiROI (SetMultiROI s rects).2 cap = (DEVICE_OK, some (rects, rects.length)) ∧
    ∃ mx my Mx My,
      (SetMultiROI s rects).2.roiX = mx ∧
      (SetMultiROI s rects).2.roiY = my ∧
      (SetMultiROI s rects).2.imgWidth = Mx - mx ∧
      (SetMultiROI s rects).2.imgHeight = My - my ∧
      (∀ r ∈ rects, mx ≤ r.x ∧ r.x + r.w ≤ Mx ∧ my ≤ r.y ∧ r.y + r.h ≤ My) ∧
      (∃ r ∈ rects, r.x = mx) ∧ (∃ r ∈ rects, r.x + r.w = Mx) ∧
      (∃ r ∈ rects, r.y = my) ∧ (∃ r ∈ rects, r.y + r.h = My) := by
  obtain ⟨r0, hr0⟩ := List.exists_mem_of_ne_nil rects hne
  have hU : U32MOD = UINT_MAX + 1 := by norm_num [U32MOD, UINT_MAX]
  -- the two return-path facts
  have hstored : storedRects (SetMultiROI s rects).2 = rects := by
    simp only [storedRects, SetMultiROI]
    exact zipRectEta rects
  have hlen : (SetMultiROI s rects).2.multiROIXs.length = rects.length := by
    simp [SetMultiROI]
  have hget : GetMultiROI (SetMultiROI s rects).2 cap =
      (DEVICE_OK, some (rects, rects.length)) := by
    simp only [GetMultiROI, hlen, hstored]
    rw [if_neg (by omega)]
  -- replace the unsigned additions by plain sums
  have hxcong : rects.foldl (fun a r => max a (uadd32 r.x r.w)) 0 =
      rects.foldl (fun a r => max a (r.x + r.w)) 0 :=
    List.foldl_ext _ _ 0 (fun a r hr => by rw [uadd32_eq _ _ (hb r hr).1])
  have hycong : rects.foldl (fun a r => max a (uadd32 r.y r.h)) 0 =
      rects.foldl (fun a r => max a (r.y + r.h)) 0 :=
    List.foldl_ext _ _ 0 (fun a r hr => by rw [uadd32_eq _ _ (hb r hr).2])
  -- state projections
  have hroiX : (SetMultiROI s rects).2.roiX =
      rects.foldl (fun a r => min a r.x) UINT_MAX := by
    simp only [SetMultiROI]
    rw [foldl_boundsStep_minX]
    simp only [initBounds]
  have hroiY : (SetMultiROI s rects).2.roiY =
      rects.foldl (fun a r => min a r.y) UINT_MAX := by
    simp only [SetMultiROI]
    rw [foldl_boundsStep_minY]
    simp only [initBounds]
  have himgW : (SetMultiROI s rects).2.imgWidth =
      usub32 (rects.foldl (fun a r => max a (r.x + r.w)) 0)
        (rects.foldl (fun a r => min a r.x) UINT_MAX) := by
    simp only [SetMultiROI]
    rw [foldl_boundsStep_maxX, foldl_boundsStep_minX]
    simp only [initBounds]
    rw [hxcong]
  have himgH : (SetMultiROI s rects).2.imgHeight =
      usub32 (rects.foldl (fun a r => max a (r.y + r.h)) 0)
        (rects.foldl (fun a r => min a r.y) UINT_MAX) := by
    simp only [SetMultiROI]
    rw [foldl_boundsStep_maxY, foldl_boundsStep_minY]
    simp only [initBounds]
    rw [hycong]
  -- bound and attainment facts, x axis
  have hmxle : ∀ r ∈ rects, rects.foldl (fun a r => min a r.x) UINT_MAX ≤ r.x :=
    fun r hr => foldl_min_le_mem Rect.x r rects UINT_MAX hr
  have hMxge : ∀ r ∈ rects, r.x + r.w ≤ rects.foldl (fun a r => max a (r.x + r.w)) 0 :=
    fun r hr => foldl_max_ge_mem (fun r => r.x + r.w) r rects 0 hr
  have hmxat : ∃ r ∈ rects, r.x = rects.foldl (fun a r => min a r.x) UINT_MAX := by
    rcases foldl_min_attained Rect.x rects UINT_MAX with h | ⟨x, hx, hfx⟩
    · have h1 := hmxle r0 hr0
      have h2 : r0.x < U32MOD := by
        have := (hb r0 hr0).1
        omega
      exact ⟨r0, hr0, by omega⟩
    · exact ⟨x, hx, hfx.symm⟩
  have hMxat : ∃ r ∈ rects, r.x + r.w =
      rects.foldl (fun a r => max a (r.x + r.w)) 0 := by
    rcases foldl_max_attained (fun r => r.x + r.w) rects 0 with h | ⟨x, hx, hfx⟩
    · have h1 := hMxge r0 hr0
      exact ⟨r0, hr0, by omega⟩
    · exact ⟨x, hx, hfx.symm⟩
  -- bound and attainment facts, y axis
  have hmyle : ∀ r ∈ rects, rects.foldl (fun a r => min a r.y) UINT_MAX ≤ r.y :=
    fun r hr => foldl_min_le_mem Rect.y r rects UINT_MAX hr
  have hMyge : ∀ r ∈ rects, r.y + r.h ≤ rects.foldl (fun a r => max a (r.y + r.h)) 0 :=
    fun r hr => foldl_max_ge_mem (fun r => r.y + r.h) r rects 0 hr
  have hmyat : ∃ r ∈ rects, r.y = rects.foldl (fun a r => min a r.y) UINT_MAX := by
    rcases foldl_min_attained Rect.y rects UINT_MAX with h | ⟨x, hx, hfx⟩
    · have h1 := hmyle r0 hr0
      have h2 : r0.y < U32MOD := by
        have := (hb r0 hr0).2
        omega
      exact ⟨r0, hr0, by omega⟩
    · exact ⟨x, hx, hfx.symm⟩
  have hMyat : ∃ r ∈ rects, r.y + r.h =
      rects.foldl (fun a r => max a (r.y + r.h)) 0 := by
    rcases foldl_max_attained (fun r => r.y + r.h) rects 0 with h | ⟨x, hx, hfx⟩
    · have h1 := hMyge r0 hr0
      exact ⟨r0, hr0, by omega⟩
    · exact ⟨x, hx, hfx.symm⟩
  -- the subtractions do not wrap
  have hmMx : rects.foldl (fun a r => min a r.x) UINT_MAX ≤
      rects.foldl (fun a r => max a (r.x + r.w)) 0 :=
    le_trans (hmxle r0 hr0) (le_trans (Nat.le_add_right _ _) (hMxge r0 hr0))
  have hmMy : rects.foldl (fun a r => min a r.y) UINT_MAX ≤
      rects.foldl (fun a r => max a (r.y + r.h)) 0 :=
    le_trans (hmyle r0 hr0) (le_trans (Nat.le_add_right _ _) (hMyge r0 hr0))
  have hMxlt : rects.foldl (fun a r => max a (r.x + r.w)) 0 < U32MOD := by
    obtain ⟨r, hr, hreq⟩ := hMxat
    have := (hb r hr).1
    omega
  have hMylt : rects.foldl (fun a r => max a (r.y + r.h)) 0 < U32MOD := by
    obtain ⟨r, hr, hreq⟩ := hMyat
    have := (hb r hr).2
    omega
  refine ⟨hget, rects.foldl (fun a r => min a r.x) UINT_MAX,
    rects.foldl (fun a r => min a r.y) UINT_MAX,
    rects.foldl (fun a r => max a (r.x + r.w)) 0,
    rects.foldl (fun a r => max a (r.y + r.h)) 0,
    hroiX, hroiY, ?_, ?_, ?_, hmxat, hMxat, hmyat, hMyat⟩
  · rw [himgW, usub32_eq _ _ hmMx hMxlt]
  · rw [himgH, usub32_eq _ _ hmMy hMylt]
  · intro r hr
    exact ⟨hmxle r hr, hMxge r hr, hmyle r hr, hMyge r hr⟩

/-- C8 (witness): concrete two-rectangle instance. -/
theorem C8_multiROI_roundtrip_bbox_witness :
    ([⟨10, 20, 30, 40⟩, ⟨5, 25, 10, 10⟩] : List Rect) ≠ [] ∧
    GetMultiROI (SetMultiROI defaultCam [⟨10, 20, 30, 40⟩, ⟨5, 25, 10, 10⟩]).2 2 =
      (DEVICE_OK, some ([⟨10, 20, 30, 40⟩, ⟨5, 25, 10, 10⟩], 2)) :=
  ⟨by decide,
   (C8_multiROI_roundtrip_bbox defaultCam [⟨10, 20, 30, 40⟩, ⟨5, 25, 10, 10⟩] 2
      (by decide) (by decide) (by decide)).1⟩

end IDSPeak
